import Mathlib

/-!
Verification of the Remote Impact unified matching engine
(`jobs/services/unified_matching_service.py` and
`jobs/services/impact_potential_service.py`), shallowly embedded in Lean.

Python floats are modelled as exact rationals, Python `set`s of strings as
deduplicated lists, Django querysets as explicit lists of records, and the
two external relevance oracles (pgvector cosine distance and PostgreSQL
full-text rank) as functions carried by an environment record `Env`.
-/

namespace RemoteImpact

/-! ### Python string primitives -/

/-- `leadsList n h` : the char list `n` starts the char list `h`. -/
def leadsList : List Char → List Char → Bool
  | [], _ => true
  | _ :: _, [] => false
  | a :: asx, b :: bs => a == b && leadsList asx bs

/-- `inChars n h` : the char list `n` occurs contiguously inside `h`
(Python `n in h` on strings). -/
def inChars (n : List Char) : List Char → Bool
  | [] => leadsList n []
  | c :: t => leadsList n (c :: t) || inChars n t

/-- Python's substring test `needle in hay`. -/
def pyIn (needle hay : String) : Bool :=
  inChars needle.toList hay.toList

/-- Python `str.lower()` (char-list implementation of `String.toLower`,
kept kernel-computable). -/
def pyLower (s : String) : String :=
  String.mk (s.toList.map Char.toLower)

/-- Python slice `s[:n]` (char-list implementation of `String.take`,
kept kernel-computable). -/
def pyTake (s : String) (n : ℕ) : String :=
  String.mk (s.toList.take n)

/-- `slug.replace("-", " ")` (single-character pattern, so a char map). -/
def dashToSpace (s : String) : String :=
  String.mk (s.toList.map fun c => if c == '-' then ' ' else c)

/-- Helper for Python `str.title()`: the boolean records whether the previous
character was alphabetic. -/
def titleChars : Bool → List Char → List Char
  | _, [] => []
  | prevAlpha, c :: t =>
    if c.isAlpha then
      (if prevAlpha then c.toLower else c.toUpper) :: titleChars true t
    else
      c :: titleChars false t

/-- Python `str.title()`. -/
def pyTitle (s : String) : String :=
  String.mk (titleChars false s.toList)

/-- A regex word character for `\b` boundaries: `[a-z0-9_]` on lowered text. -/
def isWordChar (c : Char) : Bool :=
  c.isAlphanum || c == '_'

/-- Split a char list into maximal runs of word characters; the accumulator
holds the current run reversed. -/
def wordRunsAux : List Char → List Char → List (List Char)
  | acc, [] => if acc.isEmpty then [] else [acc.reverse]
  | acc, c :: t =>
    if isWordChar c then wordRunsAux (c :: acc) t
    else if acc.isEmpty then wordRunsAux [] t
    else acc.reverse :: wordRunsAux [] t

/-- All matches of `re.findall(r'\b[a-z]{3,}\b', text)` on already-lowered
text: maximal word-character runs made only of `a`-`z` with length at least
three. -/
def lowerWords3 (text : String) : List String :=
  ((wordRunsAux [] text.toList).filter fun r =>
      3 ≤ r.length && r.all fun c => 'a' ≤ c && c ≤ 'z').map String.mk

/-- `" ".join(terms)`. -/
def joinSpace : List String → String
  | [] => ""
  | [x] => x
  | x :: y :: t => x ++ " " ++ joinSpace (y :: t)

/-- `", ".join(terms)`. -/
def joinComma : List String → String
  | [] => ""
  | [x] => x
  | x :: y :: t => x ++ ", " ++ joinComma (y :: t)

/-! ### Rounding: Python `round(x, 1)` on exact rationals -/

/-- Round to the nearest integer, ties to even (Python `round`). -/
def halfEvenInt (x : ℚ) : ℤ :=
  let f := ⌊x⌋
  let r := x - f
  if r < 1/2 then f
  else if 1/2 < r then f + 1
  else if f % 2 = 0 then f else f + 1

/-- Python `round(x, 1)`. -/
def pyRound1 (x : ℚ) : ℚ :=
  (halfEvenInt (x * 10) : ℚ) / 10

/-! ### Data model (from `jobs/models.py`) -/

structure Category where
  id : ℕ
  name : String
  deriving DecidableEq

structure Organization where
  is_givewell_top_charity : Bool
  is_80k_recommended : Bool
  is_bcorp_certified : Bool
  bcorp_score : Option ℚ
  has_public_impact_report : Bool
  has_public_financials : Bool
  impact_statement : String
  impact_metric_name : String
  impact_metric_value : String
  deriving DecidableEq

structure Job where
  title : String
  description : String
  requirements : String
  organization : Organization
  category : Option Category
  job_type : String
  salary_min : Option ℚ
  salary_max : Option ℚ
  skills : List String
  has_search_vector : Bool
  has_embedding : Bool
  is_active : Bool
  posted_at : ℚ
  deriving DecidableEq

structure SeekerProfile where
  skills : List String
  impact_areas : List Category
  work_style : String
  experience_level : String
  salary_min : Option ℚ
  salary_max : Option ℚ
  job_types : List String
  deriving DecidableEq

/-- External oracles for one fixed seeker: whether `embed_seeker` produced an
embedding, the pgvector cosine distance of each job's embedding to it, and
the PostgreSQL full-text rank of each job for the seeker's search query. -/
structure Env where
  queryEmbedding : Option Unit
  dist : Job → ℚ
  rank : Job → ℚ

structure MatchResult where
  job : Job
  score : ℚ
  semantic_score : ℚ
  lexical_score : ℚ
  profile_score : ℚ
  impact_score : ℚ
  impact_tier : String
  reasons : List String
  gaps : List String
  impact_reasons : List String
  deriving DecidableEq

/-- Return type of `ImpactPotentialService.calculate_impact_potential`. -/
structure ImpactData where
  score : ℚ
  org_credibility : ℚ
  role_leverage : ℚ
  skill_scarcity : ℚ
  reasons : List String
  deriving DecidableEq

/-! ### Constant tables -/

/-- Scoring weights from `unified_matching_service.WEIGHTS`. -/
def W_semantic : ℚ := 0.35
def W_lexical : ℚ := 0.15
def W_profile : ℚ := 0.30
def W_impact : ℚ := 0.20

/-- `WORK_STYLE_KEYWORDS` (dict insertion order preserved). -/
def WORK_STYLE_KEYWORDS : List (String × List String) :=
  [("builder",
    ["engineer", "developer", "software", "product", "design", "build", "create",
     "architect", "technical", "code", "programming", "frontend", "backend",
     "fullstack", "devops", "infrastructure", "platform", "ux", "ui"]),
   ("strategist",
    ["strategy", "communications", "marketing", "policy", "advocacy", "campaigns",
     "partnerships", "business", "development", "growth", "brand", "content",
     "storytelling", "media", "pr", "public", "relations", "outreach"]),
   ("operator",
    ["operations", "ops", "finance", "hr", "human", "resources", "admin",
     "administrative", "logistics", "procurement", "legal", "compliance",
     "accounting", "payroll", "office", "facilities", "coordinator"]),
   ("direct",
    ["program", "project", "field", "service", "delivery", "implementation",
     "community", "outreach", "engagement", "training", "facilitation",
     "volunteer", "case", "management", "social", "worker"]),
   ("researcher",
    ["research", "analyst", "analysis", "data", "scientist", "quantitative",
     "qualitative", "evaluation", "assessment", "study", "survey", "statistics",
     "modeling", "insights", "intelligence", "academic"])]

/-- `WORK_STYLE_KEYWORDS.get(style, [])` / membership test `style in dict`. -/
def workStyleKeywordsFor (style : String) : List String :=
  ((WORK_STYLE_KEYWORDS.find? fun p => p.1 == style).map Prod.snd).getD []

/-- `EXPERIENCE_COMPATIBILITY`. -/
def EXPERIENCE_COMPATIBILITY : List (String × List String) :=
  [("early", ["entry", "junior", "associate", "early", "graduate", "intern"]),
   ("mid", ["mid", "intermediate", "associate", "senior"]),
   ("senior", ["senior", "lead", "staff", "principal", "mid"]),
   ("leadership",
    ["director", "head", "vp", "chief", "manager", "lead", "senior", "executive"]),
   ("career_changer", ["entry", "junior", "associate", "mid", "early"])]

def experienceCompatFor (level : String) : List String :=
  ((EXPERIENCE_COMPATIBILITY.find? fun p => p.1 == level).map Prod.snd).getD []

/-- `LEVEL_KEYWORDS` (dict insertion order preserved). -/
def LEVEL_KEYWORDS : List (String × List String) :=
  [("entry", ["entry", "junior", "graduate", "intern", "trainee", "early career"]),
   ("mid", ["mid-level", "mid level", "intermediate", "associate", "2-5 years", "3-5 years"]),
   ("senior", ["senior", "lead", "staff", "principal", "sr.", "sr ", "5+ years", "7+ years"]),
   ("leadership",
    ["director", "head of", "vp", "chief", "manager", "cto", "ceo", "coo", "executive"])]

/-- `ROLE_LEVERAGE_KEYWORDS` from `impact_potential_service.py`
(dict insertion order preserved). -/
def ROLE_LEVERAGE_KEYWORDS : List (String × ℕ) :=
  [("ceo", 30), ("chief", 28), ("founder", 28), ("president", 27),
   ("executive director", 30), ("managing director", 28),
   ("vp", 25), ("vice president", 25),
   ("director", 22), ("head of", 22), ("head,", 20),
   ("principal", 20), ("partner", 20),
   ("senior", 15), ("lead", 16), ("staff", 14),
   ("manager", 14), ("team lead", 16),
   ("specialist", 10), ("analyst", 10), ("engineer", 10),
   ("coordinator", 8), ("associate", 8),
   ("junior", 6), ("assistant", 5), ("intern", 4), ("fellow", 6)]

/-- `SCARCE_SKILLS` from `impact_potential_service.py`
(dict insertion order preserved; iteration order matters via `break`). -/
def SCARCE_SKILLS : List (String × ℚ) :=
  [("machine learning", 1.5), ("ml", 1.5), ("ai", 1.5), ("artificial intelligence", 1.5),
   ("data science", 1.4), ("data engineering", 1.4), ("devops", 1.4),
   ("cybersecurity", 1.5), ("security", 1.3),
   ("blockchain", 1.4), ("web3", 1.3),
   ("product management", 1.3), ("product", 1.2),
   ("python", 1.2), ("javascript", 1.2), ("typescript", 1.2),
   ("react", 1.2), ("node", 1.2), ("aws", 1.3), ("gcp", 1.3), ("azure", 1.3),
   ("sql", 1.1), ("postgresql", 1.2), ("data analysis", 1.2),
   ("ux", 1.3), ("ui", 1.2), ("design", 1.2),
   ("fundraising", 1.0), ("grant writing", 1.0), ("communications", 1.0),
   ("advocacy", 1.0), ("policy", 1.0), ("research", 1.0),
   ("project management", 1.0), ("operations", 1.0)]

/-- The skills taxonomy `SKILLS` from `jobs/constants/skills.py` as
`(slug, label)` pairs (categories are irrelevant to the engine). -/
def SKILLS : List (String × String) :=
  [("python", "Python"), ("javascript", "JavaScript"), ("typescript", "TypeScript"),
   ("react", "React"), ("nodejs", "Node.js"), ("django", "Django"), ("sql", "SQL"),
   ("aws", "AWS"), ("gcp", "Google Cloud"), ("azure", "Azure"), ("docker", "Docker"),
   ("kubernetes", "Kubernetes"), ("terraform", "Terraform"), ("git", "Git"),
   ("cicd", "CI/CD"), ("api-design", "API Design"), ("system-design", "System Design"),
   ("security", "Security Engineering"), ("mobile-dev", "Mobile Development"),
   ("backend", "Backend Development"), ("frontend", "Frontend Development"),
   ("fullstack", "Full Stack Development"),
   ("data-analysis", "Data Analysis"), ("data-engineering", "Data Engineering"),
   ("data-visualization", "Data Visualization"), ("machine-learning", "Machine Learning"),
   ("deep-learning", "Deep Learning"), ("nlp", "Natural Language Processing"),
   ("computer-vision", "Computer Vision"), ("statistics", "Statistics"), ("r", "R"),
   ("pandas", "Pandas"), ("tensorflow", "TensorFlow"), ("pytorch", "PyTorch"),
   ("tableau", "Tableau"), ("powerbi", "Power BI"), ("excel-advanced", "Advanced Excel"),
   ("ab-testing", "A/B Testing"), ("impact-measurement", "Impact Measurement"),
   ("me-evaluation", "M&E / Evaluation"),
   ("product-management", "Product Management"), ("ux-design", "UX Design"),
   ("ui-design", "UI Design"), ("user-research", "User Research"),
   ("prototyping", "Prototyping"), ("figma", "Figma"),
   ("design-systems", "Design Systems"), ("accessibility", "Accessibility"),
   ("product-strategy", "Product Strategy"), ("agile-scrum", "Agile/Scrum"),
   ("roadmapping", "Roadmapping"),
   ("operations-management", "Operations Management"),
   ("process-improvement", "Process Improvement"),
   ("project-coordination", "Project Coordination"),
   ("office-management", "Office Management"),
   ("vendor-management", "Vendor Management"), ("logistics", "Logistics"),
   ("supply-chain", "Supply Chain"), ("event-planning", "Event Planning"),
   ("administrative", "Administrative Support"), ("crm", "CRM Systems"),
   ("salesforce", "Salesforce"),
   ("financial-modeling", "Financial Modeling"), ("budgeting", "Budgeting"),
   ("accounting", "Accounting"), ("financial-analysis", "Financial Analysis"),
   ("grant-management", "Grant Management"),
   ("financial-reporting", "Financial Reporting"),
   ("nonprofit-accounting", "Nonprofit Accounting"), ("forecasting", "Forecasting"),
   ("quickbooks", "QuickBooks"),
   ("writing", "Writing"), ("copywriting", "Copywriting"),
   ("content-strategy", "Content Strategy"), ("social-media", "Social Media"),
   ("email-marketing", "Email Marketing"), ("seo", "SEO"),
   ("public-relations", "Public Relations"), ("media-relations", "Media Relations"),
   ("storytelling", "Storytelling"), ("brand-strategy", "Brand Strategy"),
   ("video-production", "Video Production"), ("graphic-design", "Graphic Design"),
   ("presentation", "Presentation Skills"),
   ("research", "Research"), ("qualitative-research", "Qualitative Research"),
   ("quantitative-research", "Quantitative Research"),
   ("literature-review", "Literature Review"), ("academic-writing", "Academic Writing"),
   ("survey-design", "Survey Design"), ("interviewing", "Interviewing"),
   ("market-research", "Market Research"),
   ("competitive-analysis", "Competitive Analysis"),
   ("cost-benefit-analysis", "Cost-Benefit Analysis"),
   ("systems-thinking", "Systems Thinking"),
   ("policy-analysis", "Policy Analysis"), ("policy-writing", "Policy Writing"),
   ("advocacy", "Advocacy"), ("government-relations", "Government Relations"),
   ("regulatory-affairs", "Regulatory Affairs"),
   ("legislative-tracking", "Legislative Tracking"),
   ("coalition-building", "Coalition Building"),
   ("stakeholder-engagement", "Stakeholder Engagement"),
   ("public-speaking", "Public Speaking"),
   ("fundraising", "Fundraising"), ("major-gifts", "Major Gifts"),
   ("grant-writing", "Grant Writing"), ("donor-relations", "Donor Relations"),
   ("crowdfunding", "Crowdfunding"), ("foundation-relations", "Foundation Relations"),
   ("corporate-partnerships", "Corporate Partnerships"),
   ("annual-giving", "Annual Giving"), ("planned-giving", "Planned Giving"),
   ("program-management", "Program Management"),
   ("project-management", "Project Management"),
   ("strategic-planning", "Strategic Planning"), ("implementation", "Implementation"),
   ("monitoring", "Monitoring"), ("reporting", "Reporting"),
   ("risk-management", "Risk Management"), ("capacity-building", "Capacity Building"),
   ("partnership-development", "Partnership Development"),
   ("community-engagement", "Community Engagement"),
   ("people-management", "People Management"), ("team-leadership", "Team Leadership"),
   ("hiring", "Hiring"), ("coaching", "Coaching"), ("mentoring", "Mentoring"),
   ("conflict-resolution", "Conflict Resolution"), ("dei", "DEI"),
   ("culture-building", "Culture Building"),
   ("remote-management", "Remote Team Management"),
   ("performance-management", "Performance Management"),
   ("organizational-development", "Organizational Development"),
   ("change-management", "Change Management"),
   ("climate-science", "Climate Science"), ("climate-policy", "Climate Policy"),
   ("renewable-energy", "Renewable Energy"), ("sustainability", "Sustainability"),
   ("circular-economy", "Circular Economy"), ("carbon-accounting", "Carbon Accounting"),
   ("global-health", "Global Health"), ("public-health", "Public Health"),
   ("epidemiology", "Epidemiology"), ("health-economics", "Health Economics"),
   ("development-economics", "Development Economics"),
   ("poverty-alleviation", "Poverty Alleviation"), ("microfinance", "Microfinance"),
   ("education-policy", "Education Policy"), ("curriculum-design", "Curriculum Design"),
   ("ai-safety", "AI Safety"), ("ai-ethics", "AI Ethics"),
   ("biosecurity", "Biosecurity"), ("nuclear-policy", "Nuclear Policy"),
   ("animal-welfare", "Animal Welfare"), ("effective-altruism", "Effective Altruism"),
   ("cause-prioritization", "Cause Prioritization"),
   ("humanitarian-response", "Humanitarian Response"),
   ("refugee-services", "Refugee Services"), ("human-rights", "Human Rights"),
   ("international-development", "International Development"),
   ("social-enterprise", "Social Enterprise"), ("impact-investing", "Impact Investing")]

/-- `SKILLS_BY_SLUG.get(slug)` restricted to the label. -/
def skillLabel? (slug : String) : Option String :=
  ((SKILLS.find? fun p => p.1 == slug).map Prod.snd)

/-- Gap translation in `_score_skills`: label if the slug is known, else
`slug.replace("-", " ").title()`. -/
def slugToGapLabel (slug : String) : String :=
  match skillLabel? slug with
  | some lab => lab
  | none => pyTitle (dashToSpace slug)

/-- Search-term translation in `_build_search_query`: label if known, else
`slug.replace("-", " ")`. -/
def slugToTerm (slug : String) : String :=
  match skillLabel? slug with
  | some lab => lab
  | none => dashToSpace slug

/-! ### Impact potential service (`impact_potential_service.py`) -/

def ORG_CREDIBILITY_WEIGHT : ℚ := 40
def ROLE_LEVERAGE_WEIGHT : ℚ := 30
def SKILL_SCARCITY_WEIGHT : ℚ := 30

/-- Point contribution of the B Corp branch of `calculate_org_credibility`
(entered only when `is_bcorp_certified`); the guard `org.bcorp_score and ...`
is Python truthiness, so a score of `None` or `0` falls to the +10 default. -/
def bcorpPoints (score : Option ℚ) : ℚ :=
  match score with
  | some v => if 130 ≤ v then 15 else if 100 ≤ v then 12 else 10
  | none => 10

def bcorpReason (score : Option ℚ) : String :=
  match score with
  | some v =>
    if 130 ≤ v ∨ 100 ≤ v then "B Corp Certified (Score: " ++ toString v ++ ")"
    else "B Corp Certified"
  | none => "B Corp Certified"

/-- `ImpactPotentialService.calculate_org_credibility`. -/
def calculateOrgCredibility (org : Organization) : ℚ × List String :=
  let p1 : ℚ := if org.is_givewell_top_charity then 25 else 0
  let p2 : ℚ := if org.is_80k_recommended then 18 else 0
  let p3 : ℚ := if org.is_bcorp_certified then bcorpPoints org.bcorp_score else 0
  let p4 : ℚ := if org.has_public_impact_report then 8 else 0
  let p5 : ℚ := if org.has_public_financials then 5 else 0
  let p6 : ℚ := if org.impact_statement ≠ "" then 2 else 0
  let p7 : ℚ :=
    if org.impact_metric_name ≠ "" ∧ org.impact_metric_value ≠ "" then 2 else 0
  let points := p1 + p2 + p3 + p4 + p5 + p6 + p7
  let reasons :=
    (if org.is_givewell_top_charity then
        ["GiveWell Top Charity (rigorous impact evaluation)"] else []) ++
    (if org.is_80k_recommended then ["Recommended by 80,000 Hours"] else []) ++
    (if org.is_bcorp_certified then [bcorpReason org.bcorp_score] else []) ++
    (if org.has_public_impact_report then ["Publishes impact reports"] else []) ++
    (if org.has_public_financials then ["Transparent financials"] else [])
  (min (points / 50) 1, reasons)

/-- The `max_score` accumulation loop of `calculate_role_leverage`:
`if keyword in title_lower: if points > max_score: max_score = points`. -/
def roleMaxScore (title_lower : String) : ℕ :=
  ROLE_LEVERAGE_KEYWORDS.foldl
    (fun acc kv => if pyIn kv.1 title_lower ∧ acc < kv.2 then kv.2 else acc) 0

/-- `ImpactPotentialService.calculate_role_leverage`. A keyword matched
(`matched_keyword` is non-`None`) iff the loop maximum is positive, and the
0-to-10 default is below both reason thresholds, so the reasons depend only
on the loop maximum. -/
def calculateRoleLeverage (job_title : String) : ℚ × List String :=
  if job_title = "" then (0.3, [])
  else
    let m := roleMaxScore (pyLower job_title)
    let max_score : ℕ := if m = 0 then 10 else m
    let reasons :=
      if 20 ≤ m then ["Senior-level role with high organizational leverage"]
      else if 14 ≤ m then ["Mid-senior role with moderate organizational leverage"]
      else []
    ((max_score : ℚ) / 30, reasons)

/-- Per-skill multiplier in `calculate_skill_scarcity`: the inner loop takes
the first table entry related to the skill by substring in either direction
(then `break`s), keeping `max(1.0, mult)`. -/
def skillMult (skill : String) : ℚ :=
  match SCARCE_SKILLS.find? (fun p => pyIn p.1 skill || pyIn skill p.1) with
  | some p => max 1 p.2
  | none => 1

/-- Whether the skill is reported among `scarce_skills_found`: its first
matching table entry has multiplier at least 1.3. -/
def skillIsScarce (skill : String) : Bool :=
  match SCARCE_SKILLS.find? (fun p => pyIn p.1 skill || pyIn skill p.1) with
  | some p => decide ((1.3 : ℚ) ≤ p.2)
  | none => false

/-- The lowered, deduplicated skill-set intersection used by
`calculate_skill_scarcity` (Python `seeker_set & job_set`). -/
def scarcityOverlap (seeker_skills job_skills : List String) : List String :=
  ((job_skills.map pyLower).dedup).filter
    (fun s => s ∈ (seeker_skills.map pyLower).dedup)

/-- `ImpactPotentialService.calculate_skill_scarcity`. -/
def calculateSkillScarcity (seeker_skills job_skills : List String) : ℚ × List String :=
  if seeker_skills = [] ∨ job_skills = [] then (0.5, [])
  else
    let overlap := scarcityOverlap seeker_skills job_skills
    if overlap = [] then (0.3, [])
    else
      let total : ℚ := (overlap.map skillMult).sum
      let avg := total / overlap.length
      let score := min ((avg - 0.5) / 1) 1
      let found := overlap.filter skillIsScarce
      let reasons :=
        if found ≠ [] then
          ["Your skills (" ++ joinComma (found.take 3) ++
           ") are in high demand for impact roles"]
        else []
      (score, reasons)

/-- `ImpactPotentialService.calculate_impact_potential`. -/
def calculateImpactPotential (seeker : SeekerProfile) (job : Job) : ImpactData :=
  let org := calculateOrgCredibility job.organization
  let role := calculateRoleLeverage job.title
  let scar := calculateSkillScarcity seeker.skills job.skills
  let final :=
    org.1 * ORG_CREDIBILITY_WEIGHT / 100 +
    role.1 * ROLE_LEVERAGE_WEIGHT / 100 +
    scar.1 * SKILL_SCARCITY_WEIGHT / 100
  ⟨final, org.1, role.1, scar.1, org.2 ++ role.2 ++ scar.2⟩

/-- `ImpactPotentialService.get_impact_tier`. -/
def getImpactTier (score : ℚ) : String :=
  if 0.75 ≤ score then "exceptional"
  else if 0.55 ≤ score then "high"
  else if 0.35 ≤ score then "moderate"
  else "standard"

/-! ### Unified matching service (`unified_matching_service.py`) -/

def CANDIDATE_LIMIT : ℕ := 150
def FINAL_LIMIT : ℕ := 25

/-- `UnifiedMatchingService._build_search_query`. -/
def buildSearchQuery (seeker : SeekerProfile) : String :=
  let skillTerms := (seeker.skills.take 10).map slugToTerm
  let areaTerms := (seeker.impact_areas.take 5).map Category.name
  let styleTerms :=
    if seeker.work_style ≠ "" ∧
        (WORK_STYLE_KEYWORDS.find? fun p => p.1 == seeker.work_style).isSome then
      (workStyleKeywordsFor seeker.work_style).take 5
    else []
  joinSpace (skillTerms ++ areaTerms ++ styleTerms)

/-- `UnifiedMatchingService._calculate_lexical_score`; `env.rank` stands for
the PostgreSQL `SearchRank` of this job against the seeker's query.  A rank
of `0` is Python-falsy and yields the neutral 50. -/
def calcLexicalScore (env : Env) (seeker : SeekerProfile) (job : Job) : ℚ :=
  let search_terms := buildSearchQuery seeker
  if search_terms = "" ∨ job.has_search_vector = false then 50
  else
    let rank := env.rank job
    if rank ≠ 0 then min 100 (rank * 100) else 50

/-- `UnifiedMatchingService._score_impact_area`. -/
def scoreImpactArea (seeker : SeekerProfile) (job : Job) : ℚ × List String :=
  match job.category with
  | none => (50, [])
  | some cat =>
    let seeker_areas := (seeker.impact_areas.map Category.id).dedup
    if seeker_areas = [] then (50, [])
    else if cat.id ∈ seeker_areas then
      (100, ["Matches your " ++ cat.name ++ " focus"])
    else (35, [])

/-- One seeker skill's hit test in `_score_skills_via_keywords`
(`if skill and label in text ... elif slug.replace in text`). -/
def keywordHit (job_text slug : String) : Bool :=
  match skillLabel? slug with
  | some lab =>
    if pyIn (pyLower lab) job_text then true else pyIn (dashToSpace slug) job_text
  | none => pyIn (dashToSpace slug) job_text

/-- `UnifiedMatchingService._score_skills_via_keywords`. -/
def scoreSkillsViaKeywords (seeker_set : List String) (job : Job) :
    ℚ × List String :=
  let job_text := pyLower (job.title ++ " " ++ job.description ++ " " ++ job.requirements)
  let nMatches := (seeker_set.filter (keywordHit job_text)).length
  if 5 ≤ nMatches then (85, ["Multiple skills mentioned in job"])
  else if 3 ≤ nMatches then (70, ["Some skills found in job description"])
  else if 1 ≤ nMatches then (55, [])
  else (40, [])

/-- Python `set(seeker.skills or [])`. -/
def seekerSkillSet (seeker : SeekerProfile) : List String :=
  seeker.skills.dedup

/-- Python `set(job.skills or [])`. -/
def jobSkillSet (job : Job) : List String :=
  job.skills.dedup

/-- `seeker_skills & job_skills` in `_score_skills`. -/
def skillsOverlap (seeker : SeekerProfile) (job : Job) : List String :=
  (jobSkillSet job).filter fun s => decide (s ∈ seekerSkillSet seeker)

/-- `job_skills - seeker_skills` in `_score_skills`. -/
def skillsMissing (seeker : SeekerProfile) (job : Job) : List String :=
  (jobSkillSet job).filter fun s => decide (s ∉ seekerSkillSet seeker)

/-- `UnifiedMatchingService._score_skills`: returns
(score, reasons, gaps). -/
def scoreSkills (seeker : SeekerProfile) (job : Job) :
    ℚ × List String × List String :=
  let seeker_skills := seekerSkillSet seeker
  if seeker_skills = [] then (50, [], [])
  else
    let job_skills := jobSkillSet job
    if job_skills = [] then
      let kw := scoreSkillsViaKeywords seeker_skills job
      (kw.1, kw.2, [])
    else
      let overlap := skillsOverlap seeker job
      let missing := skillsMissing seeker job
      let match_ratio : ℚ := (overlap.length : ℚ) / (job_skills.length : ℚ)
      let score1 := match_ratio * 100
      let score2 := max 35 score1
      let score3 := if 3 ≤ overlap.length then min 100 (score2 + 10) else score2
      let reasons :=
        if 0 < overlap.length then
          [toString overlap.length ++ " of " ++ toString job_skills.length ++
           " required skills match"]
        else []
      let gaps := (missing.take 5).map slugToGapLabel
      (score3, reasons, gaps)

/-- Iteration of `LEVEL_KEYWORDS` in `_infer_job_level`: first level one of
whose keywords occurs in the text. -/
def levelSearch (text : String) : List (String × List String) → Option String
  | [] => none
  | (lvl, kws) :: rest =>
    if kws.any (fun k => pyIn k text) then some lvl else levelSearch text rest

/-- `UnifiedMatchingService._infer_job_level`. -/
def inferJobLevel (job : Job) : Option String :=
  let text := pyLower (job.title ++ " " ++ pyTake job.description 500)
  levelSearch text LEVEL_KEYWORDS

/-- `UnifiedMatchingService._score_experience`. -/
def scoreExperience (seeker : SeekerProfile) (job : Job) : ℚ × List String :=
  if seeker.experience_level = "" then (50, [])
  else
    let job_level := inferJobLevel job
    let compatible_levels := experienceCompatFor seeker.experience_level
    match job_level with
    | some lvl =>
      if lvl ∈ compatible_levels then (100, ["Experience level matches"])
      else (30, [])
    | none => (60, [])

/-- `UnifiedMatchingService._score_work_style`. -/
def scoreWorkStyle (seeker : SeekerProfile) (job : Job) : ℚ × List String :=
  if seeker.work_style = "" then (50, [])
  else
    let style_keywords := workStyleKeywordsFor seeker.work_style
    if style_keywords = [] then (50, [])
    else
      let job_text := pyLower (job.title ++ " " ++ job.description)
      let job_words := lowerWords3 job_text
      let nMatches := (style_keywords.filter fun kw => decide (kw ∈ job_words)).length
      if 5 ≤ nMatches then (100, ["Great fit for your work style"])
      else if 3 ≤ nMatches then (80, ["Aligns with your work style"])
      else if 1 ≤ nMatches then (60, [])
      else (30, [])

/-- Python truthiness of a nullable numeric field (`None` and `0` are falsy). -/
def pyTruthyQ : Option ℚ → Bool
  | none => false
  | some v => v != 0

/-- `job.salary_min <= seeker_max` where
`seeker_max = seeker.salary_max or float('inf')`. -/
def seekerMaxOk (seeker : SeekerProfile) (jmin : ℚ) : Bool :=
  match seeker.salary_max with
  | some v => if v == 0 then true else decide (jmin ≤ v)
  | none => true

/-- The job-type bonus guard in `_score_preferences`
(`if seeker.job_types and job.job_type: if job.job_type in seeker.job_types`). -/
def jobTypeMatchCode (seeker : SeekerProfile) (job : Job) : Bool :=
  !seeker.job_types.isEmpty && job.job_type != "" &&
    seeker.job_types.contains job.job_type

/-- The salary bonus guard in `_score_preferences`. -/
def salaryOverlapCode (seeker : SeekerProfile) (job : Job) : Bool :=
  pyTruthyQ seeker.salary_min && pyTruthyQ job.salary_max &&
  pyTruthyQ job.salary_min &&
  seekerMaxOk seeker (job.salary_min.getD 0) &&
  decide (seeker.salary_min.getD 0 ≤ job.salary_max.getD 0)

/-- `UnifiedMatchingService._score_preferences`. -/
def scorePreferences (seeker : SeekerProfile) (job : Job) : ℚ × List String :=
  let score1 : ℚ := 50
  let score2 := if jobTypeMatchCode seeker job then score1 + 25 else score1
  let score3 := if salaryOverlapCode seeker job then score2 + 25 else score2
  let reasons := if salaryOverlapCode seeker job then ["Salary in your range"] else []
  (min 100 score3, reasons)

/-- `UnifiedMatchingService._calculate_profile_score`: returns
(score, reasons, gaps). -/
def calcProfileScore (seeker : SeekerProfile) (job : Job) :
    ℚ × List String × List String :=
  let ia := scoreImpactArea seeker job
  let sk := scoreSkills seeker job
  let ex := scoreExperience seeker job
  let ws := scoreWorkStyle seeker job
  let pf := scorePreferences seeker job
  let profile_score :=
    ia.1 * 0.27 + sk.1 * 0.33 + ex.1 * 0.17 + ws.1 * 0.13 + pf.1 * 0.10
  (profile_score, ia.2 ++ sk.2.1 ++ ex.2 ++ ws.2 ++ pf.2, sk.2.2)

/-- `UnifiedMatchingService._score_candidate`. -/
def scoreCandidate (env : Env) (seeker : SeekerProfile) (job : Job)
    (semantic_score : ℚ) : MatchResult :=
  let lexical_score := calcLexicalScore env seeker job
  let prof := calcProfileScore seeker job
  let impact_data := calculateImpactPotential seeker job
  let impact_score := impact_data.score * 100
  let final_score :=
    semantic_score * W_semantic + lexical_score * W_lexical +
    prof.1 * W_profile + impact_score * W_impact
  let all_reasons :=
    (if 80 ≤ semantic_score then ["Strong semantic match with your profile"]
     else if 65 ≤ semantic_score then ["Good relevance to your background"]
     else []) ++ prof.2.1
  ⟨job, pyRound1 final_score, pyRound1 semantic_score, pyRound1 lexical_score,
   pyRound1 prof.1, pyRound1 impact_score, getImpactTier impact_data.score,
   all_reasons.take 5, prof.2.2.take 5, impact_data.reasons⟩

/-- `order_by('-posted_at')` as a stable ordering relation. -/
def postedDesc (a b : Job) : Prop := b.posted_at ≤ a.posted_at

instance : DecidableRel postedDesc := fun _ _ => inferInstanceAs (Decidable (_ ≤ _))
instance : IsTotal Job postedDesc := ⟨fun a b => le_total b.posted_at a.posted_at⟩
instance : IsTrans Job postedDesc := ⟨fun _ _ _ h1 h2 => le_trans h2 h1⟩

/-- `order_by('distance')` as an ordering relation. -/
def distAsc (env : Env) (a b : Job) : Prop := env.dist a ≤ env.dist b

instance (env : Env) : DecidableRel (distAsc env) :=
  fun _ _ => inferInstanceAs (Decidable (_ ≤ _))

/-- `UnifiedMatchingService._retrieve_candidates`: database queries are read
off an explicit job table `db`. -/
def retrieveCandidates (env : Env) (db : List Job) (limit : ℕ) :
    List (Job × ℚ) :=
  match env.queryEmbedding with
  | none =>
    ((List.insertionSort postedDesc (db.filter fun j => j.is_active)).take limit).map
      fun j => (j, 50)
  | some _ =>
    ((List.insertionSort (distAsc env)
        (db.filter fun j => j.is_active && j.has_embedding)).take limit).map
      fun j => (j, (1 - env.dist j) * 100)

/-- `results.sort(key=lambda r: r.score, reverse=True)` as a stable ordering
relation (Python's sort is stable, also with `reverse=True`). -/
def byScoreDesc (a b : MatchResult) : Prop := b.score ≤ a.score

instance : DecidableRel byScoreDesc := fun _ _ => inferInstanceAs (Decidable (_ ≤ _))
instance : IsTotal MatchResult byScoreDesc := ⟨fun a b => le_total b.score a.score⟩
instance : IsTrans MatchResult byScoreDesc := ⟨fun _ _ _ h1 h2 => le_trans h2 h1⟩

/-- Stage 2 of `get_matches`: score every retrieved candidate. -/
def scoreAll (env : Env) (seeker : SeekerProfile) (cands : List (Job × ℚ)) :
    List MatchResult :=
  cands.map fun p => scoreCandidate env seeker p.1 p.2

/-- The fully sorted result list of `get_matches` before truncation. -/
def rankedResults (env : Env) (db : List Job) (seeker : SeekerProfile) :
    List MatchResult :=
  List.insertionSort byScoreDesc
    (scoreAll env seeker (retrieveCandidates env db CANDIDATE_LIMIT))

/-- `UnifiedMatchingService.get_matches`. -/
def getMatches (env : Env) (db : List Job) (seeker : SeekerProfile)
    (limit : ℕ) : List MatchResult :=
  let candidates := retrieveCandidates env db CANDIDATE_LIMIT
  if candidates.isEmpty then []
  else
    (List.insertionSort byScoreDesc (scoreAll env seeker candidates)).take limit

/-! ### Spec-side formulas (for refinement claims) and concrete fixtures -/

/-- The closed form of the code's structured skills branch: overlap ratio
scaled to 0-100, floored at 35 *unconditionally* (`score = max(35.0, score)`
runs also at zero overlap), +10 bonus (capped at 100) when the overlap has at
least 3 skills.  Note the divergence from the spec's wording, which floors
only "once any overlap exists" — that conditional formula is
`claimSkillsScore` below. -/
def codeSkillsScore (overlapCount jobCount : ℕ) : ℚ :=
  let ratio : ℚ := (overlapCount : ℚ) / (jobCount : ℚ)
  let base := max 35 (ratio * 100)
  if 3 ≤ overlapCount then min 100 (base + 10) else base

/-- The skills sub-score exactly as the claim and spec word it: overlap ratio
scaled to 0-100, floored at 35 only once any overlap exists, +10 bonus
(capped at 100) when the overlap has at least 3 skills. -/
def claimSkillsScore (overlapCount jobCount : ℕ) : ℚ :=
  let ratio : ℚ := (overlapCount : ℚ) / (jobCount : ℚ)
  let base := if 0 < overlapCount then max 35 (ratio * 100) else ratio * 100
  if 3 ≤ overlapCount then min 100 (base + 10) else base

/-- The preferences sub-score as the spec words it: neutral 50, +25 per fired
bonus, capped at 100. -/
def specPrefScore (jt sal : Bool) : ℚ :=
  min 100 (50 + (if jt then 25 else 0) + (if sal then 25 else 0))

/-- Salary-range overlap as the spec words it:
`job_min ≤ seeker_max and job_max ≥ seeker_min`, with an absent
`seeker.salary_max` read as unbounded. -/
def specSalaryOverlapB (smin jmin jmax : ℚ) (smax : Option ℚ) : Bool :=
  (match smax with
   | some m => decide (jmin ≤ m)
   | none => true) && decide (smin ≤ jmax)

/-- Add one skill to a seeker's skill list, all other fields unchanged. -/
def addSkill (seeker : SeekerProfile) (s : String) : SeekerProfile :=
  ⟨seeker.skills ++ [s], seeker.impact_areas, seeker.work_style,
   seeker.experience_level, seeker.salary_min, seeker.salary_max,
   seeker.job_types⟩

/-- Placeholder result used only as the default of `List.headD`. -/
def mrDefault : MatchResult :=
  ⟨⟨"", "", "", ⟨false, false, false, none, false, false, "", "", ""⟩, none,
    "", none, none, [], false, false, false, 0⟩,
   0, 0, 0, 0, 0, "", [], [], []⟩

/-- Fixture: an organization with no credibility signals. -/
def orgNone : Organization := ⟨false, false, false, none, false, false, "", "", ""⟩

/-- Fixture: an active embedded job titled "intern" with three skills. -/
def jobIntern : Job :=
  ⟨"intern", "", "", orgNone, some ⟨2, "Health"⟩, "full-time", none, none,
   ["python", "aws", "gcp"], false, true, true, 0⟩

/-- Fixture: a seeker knowing only SQL, interested in Climate. -/
def seekerSql : SeekerProfile :=
  ⟨["sql"], [⟨1, "Climate"⟩], "builder", "mid", none, none, []⟩

/-- Fixture: embedded seeker whose lone candidate sits at cosine distance 2
(antipodal embedding, the extreme of pgvector's cosine distance range). -/
def envFar : Env := ⟨some (), fun _ => 2, fun _ => 0⟩

/-- Fixture: embedded seeker with all candidates at cosine distance 1/2. -/
def envHalf : Env := ⟨some (), fun _ => 1/2, fun _ => 0⟩

/-- Fixture: embedded seeker with all candidates at cosine distance 3/2. -/
def envFarHalf : Env := ⟨some (), fun _ => 3/2, fun _ => 0⟩

/-- Fixture: seeker for whom `embed_seeker` returned `None`. -/
def envNone : Env := ⟨none, fun _ => 0, fun _ => 0⟩

/-- Fixture: job whose skill list shares only "sql" with `seekerSql`. -/
def jobPySql : Job :=
  ⟨"t", "", "", orgNone, none, "full-time", none, none,
   ["python", "sql"], false, true, true, 0⟩

/-- Fixture: a seeker with no recorded skills. -/
def seekerNoSkills : SeekerProfile := ⟨[], [], "", "", none, none, []⟩

/-- Fixture: seeker of spec Scenario A. -/
def seekerPyDa : SeekerProfile :=
  ⟨["python", "data-analysis"], [], "", "", none, none, []⟩

/-- Fixture: job of spec Scenario A (skills only). -/
def jobPyDaAws : Job :=
  ⟨"t", "", "", orgNone, none, "full-time", none, none,
   ["python", "data-analysis", "aws"], false, true, true, 0⟩

/-- Fixture: two active jobs with distinct posting times. -/
def jobOld : Job :=
  ⟨"a", "", "", orgNone, none, "full-time", none, none, [], false, false, true, 1⟩

def jobNew : Job :=
  ⟨"b", "", "", orgNone, none, "full-time", none, none, [], false, false, true, 2⟩

/-- Fixture: seeker of spec Scenario C (`salary_min=80000`). -/
def seekerSalary : SeekerProfile :=
  ⟨[], [], "", "", some 80000, none, []⟩

/-- Fixture: job of spec Scenario C (`salary_max=60000`). -/
def jobSalary : Job :=
  ⟨"t", "", "", orgNone, none, "full-time", some 40000, some 60000,
   [], false, true, true, 0⟩

/-! ### Rounding lemmas -/

theorem le_halfEvenInt {x : ℚ} {n : ℤ} (h : (n : ℚ) ≤ x) : n ≤ halfEvenInt x := by
  have hf : n ≤ ⌊x⌋ := Int.le_floor.mpr h
  unfold halfEvenInt
  dsimp only
  split
  · exact hf
  · split
    · omega
    · split <;> omega

theorem halfEvenInt_le {x : ℚ} {n : ℤ} (h : x ≤ (n : ℚ)) : halfEvenInt x ≤ n := by
  have hf : ⌊x⌋ ≤ n := by
    have := Int.floor_le_floor h
    simpa using this
  unfold halfEvenInt
  dsimp only
  split
  · exact hf
  · have hlt : ⌊x⌋ < n := by
      by_contra hc
      push_neg at hc
      have hxn : x ≤ (⌊x⌋ : ℚ) := le_trans h (by exact_mod_cast hc)
      have : x - ⌊x⌋ < 1 / 2 := by
        have := Int.floor_le x
        nlinarith [hxn, this]
      exact absurd this (by assumption)
    split
    · omega
    · split <;> omega

theorem pyRound1_nonneg {x : ℚ} (h : 0 ≤ x) : 0 ≤ pyRound1 x := by
  unfold pyRound1
  have h0 : (0 : ℤ) ≤ halfEvenInt (x * 10) :=
    le_halfEvenInt (by push_cast; nlinarith)
  exact div_nonneg (by exact_mod_cast h0) (by norm_num)

theorem pyRound1_le_100 {x : ℚ} (h : x ≤ 100) : pyRound1 x ≤ 100 := by
  unfold pyRound1
  have h0 : halfEvenInt (x * 10) ≤ (1000 : ℤ) :=
    halfEvenInt_le (by push_cast; nlinarith)
  rw [div_le_iff₀ (by norm_num : (0:ℚ) < 10)]
  calc ((halfEvenInt (x * 10) : ℚ)) ≤ (1000 : ℚ) := by exact_mod_cast h0
    _ = 100 * 10 := by norm_num

/-! ### Bounds of the five profile sub-scores -/

theorem scoreImpactArea_bounds (seeker : SeekerProfile) (job : Job) :
    0 ≤ (scoreImpactArea seeker job).1 ∧ (scoreImpactArea seeker job).1 ≤ 100 := by
  unfold scoreImpactArea
  rcases job.category with _ | cat
  · norm_num
  · dsimp only
    split
    · norm_num
    · split <;> norm_num

theorem scoreSkillsViaKeywords_bounds (seeker_set : List String) (job : Job) :
    35 ≤ (scoreSkillsViaKeywords seeker_set job).1 ∧
      (scoreSkillsViaKeywords seeker_set job).1 ≤ 100 := by
  unfold scoreSkillsViaKeywords
  dsimp only
  split
  · norm_num
  · split
    · norm_num
    · split <;> norm_num

theorem skillsOverlap_le_jobSet (seeker : SeekerProfile) (job : Job) :
    (skillsOverlap seeker job).length ≤ (jobSkillSet job).length :=
  List.length_filter_le _ _

theorem scoreSkills_bounds (seeker : SeekerProfile) (job : Job) :
    0 ≤ (scoreSkills seeker job).1 ∧ (scoreSkills seeker job).1 ≤ 100 := by
  unfold scoreSkills
  dsimp only
  split
  · norm_num
  · split
    · constructor
      · linarith [(scoreSkillsViaKeywords_bounds (seekerSkillSet seeker) job).1]
      · exact (scoreSkillsViaKeywords_bounds (seekerSkillSet seeker) job).2
    · rename_i hseek hjob
      have hlen : 0 < (jobSkillSet job).length :=
        List.length_pos.mpr hjob
      have hratio :
          ((skillsOverlap seeker job).length : ℚ) / ((jobSkillSet job).length : ℚ) ≤ 1 := by
        rw [div_le_one (by exact_mod_cast hlen)]
        exact_mod_cast skillsOverlap_le_jobSet seeker job
      have hratio0 :
          (0:ℚ) ≤ ((skillsOverlap seeker job).length : ℚ) / ((jobSkillSet job).length : ℚ) := by
        positivity
      constructor
      · split
        · apply le_min <;> nlinarith [le_max_left (35:ℚ)
            (((skillsOverlap seeker job).length : ℚ) / ((jobSkillSet job).length : ℚ) * 100)]
        · nlinarith [le_max_left (35:ℚ)
            (((skillsOverlap seeker job).length : ℚ) / ((jobSkillSet job).length : ℚ) * 100)]
      · split
        · exact min_le_left _ _
        · apply max_le <;> nlinarith

theorem scoreExperience_bounds (seeker : SeekerProfile) (job : Job) :
    0 ≤ (scoreExperience seeker job).1 ∧ (scoreExperience seeker job).1 ≤ 100 := by
  unfold scoreExperience
  dsimp only
  split
  · norm_num
  · rcases inferJobLevel job with _ | lvl
    · norm_num
    · dsimp only
      split <;> norm_num

theorem scoreWorkStyle_bounds (seeker : SeekerProfile) (job : Job) :
    0 ≤ (scoreWorkStyle seeker job).1 ∧ (scoreWorkStyle seeker job).1 ≤ 100 := by
  unfold scoreWorkStyle
  dsimp only
  split
  · norm_num
  · split
    · norm_num
    · split
      · norm_num
      · split
        · norm_num
        · split <;> norm_num

theorem scorePreferences_bounds (seeker : SeekerProfile) (job : Job) :
    0 ≤ (scorePreferences seeker job).1 ∧ (scorePreferences seeker job).1 ≤ 100 := by
  unfold scorePreferences
  dsimp only
  constructor
  · apply le_min
    · norm_num
    · split <;> split <;> norm_num
  · exact min_le_left _ _

theorem calcProfileScore_bounds (seeker : SeekerProfile) (job : Job) :
    0 ≤ (calcProfileScore seeker job).1 ∧ (calcProfileScore seeker job).1 ≤ 100 := by
  have h1 := scoreImpactArea_bounds seeker job
  have h2 := scoreSkills_bounds seeker job
  have h3 := scoreExperience_bounds seeker job
  have h4 := scoreWorkStyle_bounds seeker job
  have h5 := scorePreferences_bounds seeker job
  unfold calcProfileScore
  dsimp only
  constructor <;> nlinarith [h1.1, h1.2, h2.1, h2.2, h3.1, h3.2, h4.1, h4.2, h5.1, h5.2]

/-! ### Bounds of the lexical score and the impact components -/

theorem calcLexicalScore_bounds (env : Env) (seeker : SeekerProfile) (job : Job)
    (hr : 0 ≤ env.rank job) :
    0 ≤ calcLexicalScore env seeker job ∧ calcLexicalScore env seeker job ≤ 100 := by
  unfold calcLexicalScore
  dsimp only
  split
  · norm_num
  · split
    · constructor
      · apply le_min
        · norm_num
        · nlinarith
      · exact min_le_left _ _
    · norm_num

theorem bcorpPoints_nonneg (s : Option ℚ) : 0 ≤ bcorpPoints s := by
  unfold bcorpPoints
  rcases s with _ | v
  · norm_num
  · dsimp only
    split
    · norm_num
    · split <;> norm_num

theorem bcorpPoints_le (s : Option ℚ) : bcorpPoints s ≤ 15 := by
  unfold bcorpPoints
  rcases s with _ | v
  · norm_num
  · dsimp only
    split
    · norm_num
    · split <;> norm_num

theorem calculateOrgCredibility_bounds (org : Organization) :
    0 ≤ (calculateOrgCredibility org).1 ∧ (calculateOrgCredibility org).1 ≤ 1 := by
  unfold calculateOrgCredibility
  dsimp only
  refine ⟨le_min ?_ ?_, min_le_right _ _⟩
  · apply div_nonneg _ (by norm_num)
    have hb := bcorpPoints_nonneg org.bcorp_score
    split <;> split <;> split <;> split <;> split <;> split <;> split <;> linarith
  · norm_num

theorem roleFold_le (t : String) :
    ∀ (l : List (String × ℕ)) (acc : ℕ), (∀ kv ∈ l, kv.2 ≤ 30) → acc ≤ 30 →
      (l.foldl (fun acc kv => if pyIn kv.1 t ∧ acc < kv.2 then kv.2 else acc) acc) ≤ 30 := by
  intro l
  induction l with
  | nil => intro acc _ hacc; simpa using hacc
  | cons kv rest ih =>
    intro acc hall hacc
    simp only [List.foldl_cons]
    apply ih _ (fun x hx => hall x (List.mem_cons_of_mem _ hx))
    split
    · exact hall kv (List.mem_cons_self _ _)
    · exact hacc

theorem roleMaxScore_le_30 (t : String) : roleMaxScore t ≤ 30 := by
  unfold roleMaxScore
  exact roleFold_le t _ 0 (by decide) (by norm_num)

theorem calculateRoleLeverage_bounds (title : String) :
    0 ≤ (calculateRoleLeverage title).1 ∧ (calculateRoleLeverage title).1 ≤ 1 := by
  unfold calculateRoleLeverage
  dsimp only
  split
  · norm_num
  · constructor
    · positivity
    · rw [div_le_one (by norm_num : (0:ℚ) < 30)]
      split
      · norm_num
      · exact_mod_cast roleMaxScore_le_30 _

theorem one_le_skillMult (s : String) : 1 ≤ skillMult s := by
  unfold skillMult
  split
  · exact le_max_left _ _
  · exact le_refl _

theorem length_le_sum_skillMult (l : List String) :
    (l.length : ℚ) ≤ (l.map skillMult).sum := by
  induction l with
  | nil => simp
  | cons a t ih =>
    simp only [List.map_cons, List.sum_cons, List.length_cons]
    push_cast
    have := one_le_skillMult a
    linarith

theorem calculateSkillScarcity_bounds (ss js : List String) :
    0 ≤ (calculateSkillScarcity ss js).1 ∧ (calculateSkillScarcity ss js).1 ≤ 1 := by
  unfold calculateSkillScarcity
  dsimp only
  split
  · norm_num
  · split
    · norm_num
    · rename_i hov
      have hlen : 0 < (scarcityOverlap ss js).length := List.length_pos.mpr hov
      have hlenq : (0:ℚ) < ((scarcityOverlap ss js).length : ℚ) := by exact_mod_cast hlen
      have havg : 1 ≤ ((scarcityOverlap ss js).map skillMult).sum /
          ((scarcityOverlap ss js).length : ℚ) := by
        rw [le_div_iff₀ hlenq, one_mul]
        exact length_le_sum_skillMult _
      refine ⟨le_min ?_ ?_, min_le_right _ _⟩
      · nlinarith
      · norm_num

theorem calculateSkillScarcity_ge_of_overlap (ss js : List String)
    (h : scarcityOverlap ss js ≠ []) :
    1/2 ≤ (calculateSkillScarcity ss js).1 := by
  have hss : ss ≠ [] := by
    intro hz
    apply h
    simp [scarcityOverlap, hz]
  have hjs : js ≠ [] := by
    intro hz
    apply h
    simp [scarcityOverlap, hz]
  unfold calculateSkillScarcity
  dsimp only
  rw [if_neg (by simp [hss, hjs]), if_neg h]
  have hlen : 0 < (scarcityOverlap ss js).length := List.length_pos.mpr h
  have hlenq : (0:ℚ) < ((scarcityOverlap ss js).length : ℚ) := by exact_mod_cast hlen
  have havg : 1 ≤ ((scarcityOverlap ss js).map skillMult).sum /
      ((scarcityOverlap ss js).length : ℚ) := by
    rw [le_div_iff₀ hlenq, one_mul]
    exact length_le_sum_skillMult _
  apply le_min <;> nlinarith

theorem calculateImpactPotential_bounds (seeker : SeekerProfile) (job : Job) :
    0 ≤ (calculateImpactPotential seeker job).score ∧
      (calculateImpactPotential seeker job).score ≤ 1 := by
  have h1 := calculateOrgCredibility_bounds job.organization
  have h2 := calculateRoleLeverage_bounds job.title
  have h3 := calculateSkillScarcity_bounds seeker.skills job.skills
  unfold calculateImpactPotential
  dsimp only
  unfold ORG_CREDIBILITY_WEIGHT ROLE_LEVERAGE_WEIGHT SKILL_SCARCITY_WEIGHT
  constructor <;> nlinarith [h1.1, h1.2, h2.1, h2.2, h3.1, h3.2]

/-! ### Bounds of the combined score, and pipeline membership lemmas -/

theorem scoreCandidate_score_bounds (env : Env) (seeker : SeekerProfile) (job : Job)
    (sem : ℚ) (h0 : 0 ≤ sem) (h1 : sem ≤ 100) (hr : 0 ≤ env.rank job) :
    0 ≤ (scoreCandidate env seeker job sem).score ∧
      (scoreCandidate env seeker job sem).score ≤ 100 := by
  have hl := calcLexicalScore_bounds env seeker job hr
  have hp := calcProfileScore_bounds seeker job
  have hi := calculateImpactPotential_bounds seeker job
  unfold scoreCandidate
  dsimp only
  unfold W_semantic W_lexical W_profile W_impact
  constructor
  · apply pyRound1_nonneg
    nlinarith [hl.1, hp.1, hi.1]
  · apply pyRound1_le_100
    nlinarith [hl.2, hp.2, hi.2]

theorem retrieve_sem_bounds (env : Env) (db : List Job) (limit : ℕ)
    (hd : ∀ j, 0 ≤ env.dist j ∧ env.dist j ≤ 1) :
    ∀ p ∈ retrieveCandidates env db limit, 0 ≤ p.2 ∧ p.2 ≤ 100 := by
  intro p hp
  cases henv : env.queryEmbedding with
  | none =>
    simp only [retrieveCandidates, henv] at hp
    rcases List.mem_map.mp hp with ⟨j, _, rfl⟩
    norm_num
  | some u =>
    simp only [retrieveCandidates, henv] at hp
    rcases List.mem_map.mp hp with ⟨j, _, rfl⟩
    have := hd j
    dsimp only
    constructor <;> nlinarith [this.1, this.2]

theorem getMatches_mem_scored (env : Env) (db : List Job) (seeker : SeekerProfile)
    (limit : ℕ) (r : MatchResult) (hr : r ∈ getMatches env db seeker limit) :
    ∃ p ∈ retrieveCandidates env db CANDIDATE_LIMIT,
      r = scoreCandidate env seeker p.1 p.2 := by
  unfold getMatches at hr
  dsimp only at hr
  split at hr
  · exact absurd hr (List.not_mem_nil r)
  · have h2 : r ∈ List.insertionSort byScoreDesc
        (scoreAll env seeker (retrieveCandidates env db CANDIDATE_LIMIT)) :=
      List.take_subset _ _ hr
    have h3 : r ∈ scoreAll env seeker (retrieveCandidates env db CANDIDATE_LIMIT) :=
      (List.perm_insertionSort _ _).subset h2
    unfold scoreAll at h3
    rcases List.mem_map.mp h3 with ⟨p, hp, hpe⟩
    exact ⟨p, hp, hpe.symm⟩

/-! ### Stable-sort lemmas for `get_matches` -/

theorem filter_orderedInsert_byScore (c : ℚ) (a : MatchResult) (l : List MatchResult) :
    (List.orderedInsert byScoreDesc a l).filter (fun r => decide (r.score = c)) =
      (a :: l).filter (fun r => decide (r.score = c)) := by
  induction l with
  | nil => rfl
  | cons b t ih =>
    by_cases hab : byScoreDesc a b
    · rw [List.orderedInsert, if_pos hab]
    · rw [List.orderedInsert, if_neg hab]
      have hne : a.score ≠ b.score := by
        unfold byScoreDesc at hab
        push_neg at hab
        exact ne_of_lt hab
      by_cases hb : b.score = c <;> by_cases ha : a.score = c
      · exact absurd (ha.trans hb.symm) hne
      all_goals simp [List.filter_cons, hb, ha, ih]

theorem filter_insertionSort_byScore (c : ℚ) (l : List MatchResult) :
    (List.insertionSort byScoreDesc l).filter (fun r => decide (r.score = c)) =
      l.filter (fun r => decide (r.score = c)) := by
  induction l with
  | nil => rfl
  | cons a t ih =>
    rw [List.insertionSort, filter_orderedInsert_byScore]
    simp only [List.filter_cons, ih]

/-! ### Skills-score structure lemmas -/

theorem headD_mem_self {α : Type _} (l : List α) (d : α) (h : l ≠ []) :
    l.headD d ∈ l := by
  cases l with
  | nil => exact absurd rfl h
  | cons a t => exact List.mem_cons_self a t

theorem scoreSkills_structured (seeker : SeekerProfile) (job : Job)
    (h1 : seekerSkillSet seeker ≠ []) (h2 : jobSkillSet job ≠ []) :
    (scoreSkills seeker job).1 =
      codeSkillsScore (skillsOverlap seeker job).length (jobSkillSet job).length := by
  unfold scoreSkills codeSkillsScore
  dsimp only
  rw [if_neg h1, if_neg h2]

theorem codeSkillsScore_base_le_100 {k j : ℕ} (hj : 0 < j) (hkj : k ≤ j) :
    max 35 ((k : ℚ) / (j : ℚ) * 100) ≤ 100 := by
  have hjq : (0:ℚ) < j := by exact_mod_cast hj
  apply max_le
  · norm_num
  · have : (k : ℚ) / (j : ℚ) ≤ 1 := by
      rw [div_le_one hjq]
      exact_mod_cast hkj
    nlinarith

theorem codeSkillsScore_mono {k k' j : ℕ} (hj : 0 < j) (hkk : k ≤ k')
    (hk'j : k' ≤ j) : codeSkillsScore k j ≤ codeSkillsScore k' j := by
  have hjq : (0:ℚ) < j := by exact_mod_cast hj
  have hb : max 35 ((k : ℚ) / (j : ℚ) * 100) ≤ max 35 ((k' : ℚ) / (j : ℚ) * 100) := by
    apply max_le_max le_rfl
    have : (k : ℚ) / (j : ℚ) ≤ (k' : ℚ) / (j : ℚ) := by
      gcongr
    nlinarith
  unfold codeSkillsScore
  dsimp only
  by_cases h3 : 3 ≤ k
  · rw [if_pos h3, if_pos (le_trans h3 hkk)]
    exact min_le_min le_rfl (by linarith)
  · rw [if_neg h3]
    by_cases h3' : 3 ≤ k'
    · rw [if_pos h3']
      refine le_min ?_ (by linarith)
      exact le_trans hb (codeSkillsScore_base_le_100 hj hk'j)
    · rw [if_neg h3']
      exact hb

/-! ### Claim theorems -/

/-- C1 (amended): every result of `get_matches` has a final `score` in
[0, 100], `provided` every retrieved cosine distance lies in [0, 1] (so the
semantic sub-score is non-negative) and the full-text ranks are non-negative.
Without the distance restriction the claim fails (see the counterexample):
pgvector cosine distances range over [0, 2] and the code never clamps the
semantic term, so the weighted sum can go negative. -/
theorem c1_score_bounds (env : Env) (db : List Job) (seeker : SeekerProfile)
    (limit : ℕ) (hrank : ∀ j, 0 ≤ env.rank j)
    (hdist : ∀ j, 0 ≤ env.dist j ∧ env.dist j ≤ 1) :
    ∀ r ∈ getMatches env db seeker limit, 0 ≤ r.score ∧ r.score ≤ 100 := by
  intro r hr
  obtain ⟨p, hp, rfl⟩ := getMatches_mem_scored env db seeker limit r hr
  have hsem := retrieve_sem_bounds env db CANDIDATE_LIMIT hdist p hp
  exact scoreCandidate_score_bounds env seeker p.1 p.2 hsem.1 hsem.2 (hrank p.1)

/-- C2 (amended): the lexical, profile and impact sub-scores always lie in
[0, 100] (lexical under the physical fact that full-text ranks are
non-negative); the semantic sub-score of a retrieved candidate lies in
[0, 100] only when its cosine distance lies in [0, 1] — for distances up to
2 it can be as low as -100 (see the counterexample). -/
theorem c2_subscore_bounds (env : Env) (seeker : SeekerProfile) (job : Job)
    (db : List Job) (limit : ℕ) (hr : 0 ≤ env.rank job)
    (hd : ∀ j, 0 ≤ env.dist j ∧ env.dist j ≤ 1) :
    (0 ≤ calcLexicalScore env seeker job ∧ calcLexicalScore env seeker job ≤ 100) ∧
    (0 ≤ (calcProfileScore seeker job).1 ∧ (calcProfileScore seeker job).1 ≤ 100) ∧
    (0 ≤ (calculateImpactPotential seeker job).score * 100 ∧
      (calculateImpactPotential seeker job).score * 100 ≤ 100) ∧
    (∀ p ∈ retrieveCandidates env db limit, 0 ≤ p.2 ∧ p.2 ≤ 100) := by
  refine ⟨calcLexicalScore_bounds env seeker job hr,
    calcProfileScore_bounds seeker job, ?_,
    retrieve_sem_bounds env db limit hd⟩
  have h := calculateImpactPotential_bounds seeker job
  constructor <;> nlinarith [h.1, h.2]

/-- C3 (amended): the `gaps` list of a `MatchResult` has at most 5 entries,
and each entry is the slug-to-label translation (`SKILLS_BY_SLUG` label, or
the title-cased slug) of a skill that is in `job.skills` but not in
`seeker.skills`.  The entries are the display labels, not the slugs
themselves, so literal set inclusion in `job.skills − seeker.skills` fails
(see the counterexample). -/
theorem c3_gaps_translated (env : Env) (seeker : SeekerProfile) (job : Job)
    (sem : ℚ) :
    (scoreCandidate env seeker job sem).gaps.length ≤ 5 ∧
    ∀ g ∈ (scoreCandidate env seeker job sem).gaps,
      ∃ slug, slug ∈ job.skills ∧ slug ∉ seeker.skills ∧ g = slugToGapLabel slug := by
  have hgaps : (scoreCandidate env seeker job sem).gaps =
      (scoreSkills seeker job).2.2.take 5 := rfl
  rw [hgaps]
  constructor
  · rw [List.length_take]
    exact min_le_left _ _
  · intro g hg
    have hg5 : g ∈ (scoreSkills seeker job).2.2 := List.take_subset _ _ hg
    unfold scoreSkills at hg5
    dsimp only at hg5
    split at hg5
    · exact absurd hg5 (List.not_mem_nil g)
    · split at hg5
      · exact absurd hg5 (List.not_mem_nil g)
      · rcases List.mem_map.mp hg5 with ⟨slug, hslug, rfl⟩
        have hslug' : slug ∈ skillsMissing seeker job := List.take_subset _ _ hslug
        unfold skillsMissing at hslug'
        have h := List.mem_filter.mp hslug'
        refine ⟨slug, ?_, ?_, rfl⟩
        · exact List.mem_dedup.mp h.1
        · have hd := of_decide_eq_true h.2
          intro hmem
          exact hd (List.mem_dedup.mpr hmem)

/-- C4 (amended): when the seeker already has at least one recorded skill,
adding a skill that the job requires and the seeker lacks never decreases the
skills sub-score.  For a seeker with an empty skill list the claim fails: the
neutral 50 drops to the 35 floor after the first skill is added (see the
counterexample). -/
theorem c4_skill_monotone (seeker : SeekerProfile) (job : Job) (s : String)
    (hmem : s ∈ job.skills) (hnot : s ∉ seeker.skills)
    (hne : seeker.skills ≠ []) :
    (scoreSkills seeker job).1 ≤ (scoreSkills (addSkill seeker s) job).1 := by
  have h1 : seekerSkillSet seeker ≠ [] := by
    simpa [seekerSkillSet, List.dedup_eq_nil] using hne
  have h1' : seekerSkillSet (addSkill seeker s) ≠ [] := by
    simp [seekerSkillSet, addSkill, List.dedup_eq_nil]
  have h2 : jobSkillSet job ≠ [] := by
    intro hz
    have hms : s ∈ jobSkillSet job := List.mem_dedup.mpr hmem
    rw [hz] at hms
    exact List.not_mem_nil s hms
  rw [scoreSkills_structured seeker job h1 h2,
      scoreSkills_structured (addSkill seeker s) job h1' h2]
  apply codeSkillsScore_mono (List.length_pos.mpr h2)
  · unfold skillsOverlap
    rw [← List.countP_eq_length_filter, ← List.countP_eq_length_filter]
    apply List.countP_mono_left
    intro x _ hx
    have hx' := of_decide_eq_true hx
    apply decide_eq_true
    have : x ∈ seeker.skills := by
      simpa [seekerSkillSet, List.mem_dedup] using hx'
    simp [seekerSkillSet, addSkill, List.mem_dedup]
    exact Or.inl this
  · exact List.length_filter_le _ _

/-- C5 (amended): for a seeker with a non-empty skill set and a job with
non-empty structured skills, the skills sub-score equals the overlap ratio
scaled to 0-100, floored at 35 *unconditionally* — `max(35.0, score)` runs
also at zero overlap, where the claim's conditional "floored at 35 once any
overlap exists" would give the bare ratio 0 instead (see the counterexample)
— boosted by +10 (capped at 100) when the overlap has at least 3 skills.
The witness instantiates spec Scenario A: seeker {python, data-analysis}
against job {python, data-analysis, aws} scores 200/3 ≈ 67, where floor and
bonus are both inert and the claimed and actual formulas agree. -/
theorem c5_skills_formula (seeker : SeekerProfile) (job : Job)
    (h1 : seeker.skills ≠ []) (h2 : job.skills ≠ []) :
    (scoreSkills seeker job).1 =
      codeSkillsScore (skillsOverlap seeker job).length (jobSkillSet job).length :=
  scoreSkills_structured seeker job
    (by simpa [seekerSkillSet, List.dedup_eq_nil] using h1)
    (by simpa [jobSkillSet, List.dedup_eq_nil] using h2)

/-- C6: `get_matches` returns a prefix (of length at most `limit`) of the
stably sorted result list: the output is sorted non-increasingly by `score`,
has length ≤ `limit`, and for every score value the results carrying that
score appear in exactly the retrieval (insertion) order — the stability
guarantee of Python's `list.sort`. -/
theorem c6_ordering (env : Env) (db : List Job) (seeker : SeekerProfile)
    (limit : ℕ) :
    List.Sorted byScoreDesc (getMatches env db seeker limit) ∧
    (getMatches env db seeker limit).length ≤ limit ∧
    getMatches env db seeker limit = (rankedResults env db seeker).take limit ∧
    ∀ c : ℚ, (rankedResults env db seeker).filter (fun r => decide (r.score = c)) =
      (scoreAll env seeker (retrieveCandidates env db CANDIDATE_LIMIT)).filter
        (fun r => decide (r.score = c)) := by
  have heq : getMatches env db seeker limit =
      (rankedResults env db seeker).take limit := by
    unfold getMatches rankedResults
    dsimp only
    split
    · rename_i hempty
      rw [List.isEmpty_iff] at hempty
      rw [hempty]
      simp [scoreAll]
    · rfl
  refine ⟨?_, ?_, heq, ?_⟩
  · rw [heq]
    exact List.Pairwise.sublist (List.take_sublist _ _)
      (List.sorted_insertionSort byScoreDesc _)
  · rw [heq, List.length_take]
    exact min_le_left _ _
  · intro c
    exact filter_insertionSort_byScore c _

/-- C7: when `embed_seeker` returns `None`, retrieval degrades without error
to the recency-ordered scan of active jobs: every returned candidate carries
the neutral semantic score 50 and is active, candidates are ordered by
`posted_at` descending, and exactly `min limit #active` of them are
returned. -/
theorem c7_no_embedding_fallback (env : Env) (db : List Job) (limit : ℕ)
    (h : env.queryEmbedding = none) :
    (∀ p ∈ retrieveCandidates env db limit, p.2 = 50 ∧ p.1.is_active = true) ∧
    List.Pairwise (fun p q : Job × ℚ => q.1.posted_at ≤ p.1.posted_at)
      (retrieveCandidates env db limit) ∧
    (retrieveCandidates env db limit).length =
      min limit (db.filter (fun j => j.is_active)).length := by
  refine ⟨?_, ?_, ?_⟩
  · intro p hp
    simp only [retrieveCandidates, h] at hp
    rcases List.mem_map.mp hp with ⟨j, hj, rfl⟩
    have hj' : j ∈ List.insertionSort postedDesc (db.filter fun j => j.is_active) :=
      List.take_subset _ _ hj
    have hj'' : j ∈ db.filter (fun j => j.is_active) :=
      (List.perm_insertionSort _ _).subset hj'
    exact ⟨rfl, (List.mem_filter.mp hj'').2⟩
  · simp only [retrieveCandidates, h]
    rw [List.pairwise_map]
    exact List.Pairwise.sublist (List.take_sublist _ _)
      (List.sorted_insertionSort postedDesc _)
  · simp only [retrieveCandidates, h]
    rw [List.length_map, List.length_take,
      (List.perm_insertionSort postedDesc _).length_eq]

/-- C8: with all three salary fields present and positive (the guards Python
truthiness imposes) and a non-empty job type, the preferences sub-score
equals the spec formula: 50 baseline, +25 when the job's type is among the
seeker's accepted types, +25 when the salary ranges overlap
(`job_min ≤ seeker_max` and `job_max ≥ seeker_min`, absent seeker maximum
read as unbounded), capped at 100; and the "Salary in your range" reason is
emitted exactly when the salary bonus fires.  The witness instantiates spec
Scenario C (`salary_min=80000` vs `salary_max=60000`): score stays 50 and no
salary reason is emitted. -/
theorem c8_preferences (seeker : SeekerProfile) (job : Job)
    (smin jmin jmax : ℚ)
    (hs : seeker.salary_min = some smin) (hs0 : 0 < smin)
    (hjm : job.salary_min = some jmin) (hjm0 : 0 < jmin)
    (hjx : job.salary_max = some jmax) (hjx0 : 0 < jmax)
    (hsx : ∀ m, seeker.salary_max = some m → 0 < m)
    (hjt : job.job_type ≠ "") :
    (scorePreferences seeker job).1 =
      specPrefScore (decide (job.job_type ∈ seeker.job_types))
        (specSalaryOverlapB smin jmin jmax seeker.salary_max) ∧
    ("Salary in your range" ∈ (scorePreferences seeker job).2 ↔
      specSalaryOverlapB smin jmin jmax seeker.salary_max = true) := by
  have hjtb : jobTypeMatchCode seeker job =
      decide (job.job_type ∈ seeker.job_types) := by
    unfold jobTypeMatchCode
    by_cases hmem : job.job_type ∈ seeker.job_types
    · have hne : seeker.job_types ≠ [] := by
        intro hz
        rw [hz] at hmem
        exact List.not_mem_nil _ hmem
      simp [hmem, hne, hjt]
    · simp [hmem]
  have hsal : salaryOverlapCode seeker job =
      specSalaryOverlapB smin jmin jmax seeker.salary_max := by
    unfold salaryOverlapCode specSalaryOverlapB seekerMaxOk pyTruthyQ
    rw [hs, hjm, hjx]
    dsimp only [Option.getD_some]
    have h1 : (smin != 0) = true := by simp [(ne_of_gt hs0)]
    have h2 : (jmax != 0) = true := by simp [(ne_of_gt hjx0)]
    have h3 : (jmin != 0) = true := by simp [(ne_of_gt hjm0)]
    cases hsm : seeker.salary_max with
    | none => simp [h1, h2, h3]
    | some m =>
      have hm := hsx m hsm
      have hm' : (m == 0) = false := by simp [(ne_of_gt hm)]
      simp [h1, h2, h3, hm', Bool.and_comm]
  unfold scorePreferences
  dsimp only
  rw [hjtb, hsal]
  constructor
  · unfold specPrefScore
    cases decide (job.job_type ∈ seeker.job_types) <;>
      cases specSalaryOverlapB smin jmin jmax seeker.salary_max <;>
        norm_num
  · cases specSalaryOverlapB smin jmin jmax seeker.salary_max <;> simp

/-- C9: the scoring of one candidate is a pure function of the seeker, the
job, the semantic score and the external oracle state: computing it twice on
equal inputs yields the same `MatchResult`, in particular the same final
score, all four sub-scores, tier, reasons and gaps.  (The full-text rank the
lexical scorer queries is part of the oracle state `Env`, so "unchanged
inputs" includes the database state.) -/
theorem c9_deterministic (env env' : Env) (seeker seeker' : SeekerProfile)
    (job job' : Job) (sem sem' : ℚ)
    (h1 : env = env') (h2 : seeker = seeker') (h3 : job = job')
    (h4 : sem = sem') :
    scoreCandidate env seeker job sem = scoreCandidate env' seeker' job' sem' ∧
    (scoreCandidate env seeker job sem).score =
      (scoreCandidate env' seeker' job' sem').score ∧
    (scoreCandidate env seeker job sem).semantic_score =
      (scoreCandidate env' seeker' job' sem').semantic_score ∧
    (scoreCandidate env seeker job sem).lexical_score =
      (scoreCandidate env' seeker' job' sem').lexical_score ∧
    (scoreCandidate env seeker job sem).profile_score =
      (scoreCandidate env' seeker' job' sem').profile_score ∧
    (scoreCandidate env seeker job sem).impact_score =
      (scoreCandidate env' seeker' job' sem').impact_score ∧
    (scoreCandidate env seeker job sem).impact_tier =
      (scoreCandidate env' seeker' job' sem').impact_tier ∧
    (scoreCandidate env seeker job sem).reasons =
      (scoreCandidate env' seeker' job' sem').reasons ∧
    (scoreCandidate env seeker job sem).gaps =
      (scoreCandidate env' seeker' job' sem').gaps := by
  subst h1; subst h2; subst h3; subst h4
  exact ⟨rfl, rfl, rfl, rfl, rfl, rfl, rfl, rfl, rfl⟩

/-- C10: whenever the (case-insensitively compared) seeker and job skill sets
share at least one skill, the skill-scarcity component scores at least 0.5 —
never below the neutral returned for entirely missing skill data — because
every overlapping skill's multiplier is floored at the 1.0 baseline and the
average is mapped through `(avg − 0.5) / 1.0` before the cap at 1. -/
theorem c10_scarcity_floor (seeker_skills job_skills : List String)
    (h : scarcityOverlap seeker_skills job_skills ≠ []) :
    1/2 ≤ (calculateSkillScarcity seeker_skills job_skills).1 :=
  calculateSkillScarcity_ge_of_overlap seeker_skills job_skills h

/-! ### Concrete counterexamples and witnesses

The rational operations of Batteries are `@[irreducible]` only to keep
elaboration fast; re-marking them semireducible lets `decide` evaluate the
engine on concrete fixtures. -/

attribute [local semireducible] Rat.add Rat.mul Rat.sub Rat.inv Rat.ofScientific

/-- C1 counterexample: a single retrieved job at cosine distance 2 (semantic
sub-score -100) with minimal profile and impact sub-scores receives the final
score -14.4 — the engine's output score can be negative, refuting
`0 ≤ score` as stated. -/
theorem c1_counterexample :
    (getMatches envFar [jobIntern] seekerSql 25).length = 1 ∧
    ((getMatches envFar [jobIntern] seekerSql 25).headD mrDefault).score < 0 := by
  exact ⟨by decide, by decide⟩

/-- C1 witness: a concrete run with all cosine distances at 1/2 and zero
full-text ranks, whose first result the amended theorem bounds into
[0, 100]. -/
theorem c1_witness :
    0 ≤ ((getMatches envHalf [jobIntern] seekerSql 25).headD mrDefault).score ∧
    ((getMatches envHalf [jobIntern] seekerSql 25).headD mrDefault).score ≤ 100 := by
  apply c1_score_bounds envHalf [jobIntern] seekerSql 25
  · intro j
    exact le_refl 0
  · intro j
    exact ⟨by norm_num [envHalf], by norm_num [envHalf]⟩
  · exact headD_mem_self _ _ (by decide)

/-- C2 counterexample: a retrieved candidate at cosine distance 3/2 is
assigned the semantic sub-score -50, outside [0, 100] — the semantic
sub-score is not bounded to [0, 100] before weighting. -/
theorem c2_counterexample :
    (retrieveCandidates envFarHalf [jobIntern] CANDIDATE_LIMIT).map Prod.snd =
      [-50] ∧ ¬ (0 ≤ (-50 : ℚ)) := by
  exact ⟨by decide, by decide⟩

/-- C2 witness: the amended bounds instantiated on a concrete seeker, job and
oracle state. -/
theorem c2_witness :
    0 ≤ calcLexicalScore envHalf seekerSql jobIntern ∧
      calcLexicalScore envHalf seekerSql jobIntern ≤ 100 :=
  (c2_subscore_bounds envHalf seekerSql jobIntern [jobIntern] 150
    (le_refl 0) (fun _ => ⟨by norm_num [envHalf], by norm_num [envHalf]⟩)).1

/-- C3 counterexample: seeker skills {sql} against job skills {python, sql}
produce the gap entry "Python" — the translated label — which is not an
element of `job.skills − seeker.skills = {"python"}`, refuting literal set
inclusion. -/
theorem c3_counterexample :
    (scoreCandidate envHalf seekerSql jobPySql 50).gaps = ["Python"] ∧
    "Python" ∉ jobPySql.skills := by
  exact ⟨by decide, by decide⟩

/-- C4 counterexample: a seeker with no recorded skills scores the neutral 50
against `jobIntern`; after adding the job skill "python" the structured
overlap path yields only the 35 floor, so the skills sub-score strictly
decreases, refuting unconditional monotonicity. -/
theorem c4_counterexample :
    "python" ∈ jobIntern.skills ∧ "python" ∉ seekerNoSkills.skills ∧
    (scoreSkills (addSkill seekerNoSkills "python") jobIntern).1 <
      (scoreSkills seekerNoSkills jobIntern).1 := by
  exact ⟨by decide, by decide, by decide⟩

/-- C4 witness: the amended monotonicity applied to a seeker who already
knows sql, gaining the job skill "python". -/
theorem c4_witness :
    (scoreSkills seekerSql jobPySql).1 ≤
      (scoreSkills (addSkill seekerSql "python") jobPySql).1 :=
  c4_skill_monotone seekerSql jobPySql "python" (by decide) (by decide) (by decide)

/-- C5 counterexample: seeker skills {sql} and job skills {python, aws, gcp}
are non-empty and disjoint — inside the claim's scope — where the code's
unconditional floor yields 35 while the claim's conditional formula
("floored at 35 once any overlap exists") yields the bare ratio 0, so the
skills sub-score does not equal the claimed formula. -/
theorem c5_counterexample :
    seekerSql.skills ≠ [] ∧ jobIntern.skills ≠ [] ∧
    (skillsOverlap seekerSql jobIntern).length = 0 ∧
    (scoreSkills seekerSql jobIntern).1 = 35 ∧
    claimSkillsScore (skillsOverlap seekerSql jobIntern).length
      (jobSkillSet jobIntern).length = 0 ∧
    (scoreSkills seekerSql jobIntern).1 ≠
      claimSkillsScore (skillsOverlap seekerSql jobIntern).length
        (jobSkillSet jobIntern).length := by
  exact ⟨by decide, by decide, by decide, by decide, by decide, by decide⟩

/-- C5 witness: spec Scenario A — seeker skills {python, data-analysis}, job
skills {python, data-analysis, aws} — evaluates the formula to 200/3 ≈ 66.7
(2/3 overlap, no ≥3 bonus). -/
theorem c5_witness :
    seekerPyDa.skills ≠ [] ∧ jobPyDaAws.skills ≠ [] ∧
    (scoreSkills seekerPyDa jobPyDaAws).1 = 200/3 := by
  refine ⟨by decide, by decide, ?_⟩
  have h := c5_skills_formula seekerPyDa jobPyDaAws (by decide) (by decide)
  rw [h]
  decide

/-- C7 witness: two active jobs and an absent seeker embedding — the
fallback retrieval is recency-sorted, complete, and carries the neutral 50. -/
theorem c7_witness :
    List.Pairwise (fun p q : Job × ℚ => q.1.posted_at ≤ p.1.posted_at)
      (retrieveCandidates envNone [jobOld, jobNew] 150) ∧
    (retrieveCandidates envNone [jobOld, jobNew] 150).length =
      min 150 (([jobOld, jobNew].filter (fun j => j.is_active)).length) ∧
    ((retrieveCandidates envNone [jobOld, jobNew] 150).headD
      (mrDefault.job, 0)).2 = 50 := by
  have h := c7_no_embedding_fallback envNone [jobOld, jobNew] 150 rfl
  refine ⟨h.2.1, h.2.2, ?_⟩
  exact (h.1 _ (headD_mem_self _ _ (by decide))).1

/-- C8 witness: spec Scenario C — seeker `salary_min = 80000`, job salary
range [40000, 60000], no accepted job types: the preferences sub-score stays
at the 50 baseline and no "Salary in your range" reason is emitted. -/
theorem c8_witness :
    (scorePreferences seekerSalary jobSalary).1 = 50 ∧
    "Salary in your range" ∉ (scorePreferences seekerSalary jobSalary).2 := by
  have h := c8_preferences seekerSalary jobSalary 80000 40000 60000
    rfl (by norm_num) rfl (by norm_num) rfl (by norm_num)
    (fun m hm => nomatch hm) (by decide)
  constructor
  · rw [h.1]
    decide
  · intro hmem
    have hb := h.2.mp hmem
    rw [show specSalaryOverlapB 80000 40000 60000 seekerSalary.salary_max = false
      from by decide] at hb
    exact Bool.false_ne_true hb

/-- C9 witness: determinism instantiated at a concrete oracle state, seeker,
job and semantic score. -/
theorem c9_witness :
    scoreCandidate envHalf seekerSql jobIntern 50 =
      scoreCandidate envHalf seekerSql jobIntern 50 :=
  (c9_deterministic envHalf envHalf seekerSql seekerSql jobIntern jobIntern
    50 50 rfl rfl rfl rfl).1

/-- C10 witness: "Python" and "python" overlap case-insensitively, and the
scarcity component indeed scores at least 0.5 (it evaluates to 0.7). -/
theorem c10_witness :
    scarcityOverlap ["Python"] ["python"] ≠ [] ∧
    1/2 ≤ (calculateSkillScarcity ["Python"] ["python"]).1 :=
  ⟨by decide, c10_scarcity_floor ["Python"] ["python"] (by decide)⟩

end RemoteImpact
